import Mathlib

/-
Verification development for the tool-augmented conversation orchestrator:
the MCP protocol client (src/src/mcp-client.ts) and the conversation loop
of the OpenAI agent (processMessage and its dispatch loop).

The embedding is a shallow one.  Stateful methods of the client become
functions from an explicit client state and a host oracle (describing the
answers of the out-of-process tool host) to a result, the updated state
where relevant, and a trace of the transport calls performed.  The
JavaScript runtime pieces the code relies on (JSON.parse, JSON.stringify,
the completion endpoint) are abstract parameters, since they are not code
of this repository.
-/

/-- A JSON value, the shape JSON.parse produces and JSON.stringify consumes. -/
inductive JsonV where
  | null : JsonV
  | bool (b : Bool) : JsonV
  | num (n : Int) : JsonV
  | str (s : String) : JsonV
  | arr (xs : List JsonV) : JsonV
  | obj (fields : List (String × JsonV)) : JsonV

/-- One item of a tool-host response content list.  The client only inspects
whether the item is of type text; every other item is returned verbatim. -/
inductive ContentItem where
  | text (s : String) : ContentItem
  | nonText (ty : String) (payload : String) : ContentItem

/-- The response frame of a callTool request: an optional content list
(absent models a response without a content array). -/
structure ToolResponse where
  content : Option (List ContentItem)

/-- The value callTool returns on success: a decoded JSON value, a plain
text payload, a non-text content item, or the whole response frame. -/
inductive ToolValue where
  | json (v : JsonV) : ToolValue
  | str (s : String) : ToolValue
  | item (c : ContentItem) : ToolValue
  | whole (r : ToolResponse) : ToolValue

/-- One content entry of a readResource response. -/
structure ResourceContent where
  uri : String
  text : Option String

/-- The response frame of a readResource request. -/
structure ResourceResponse where
  contents : Option (List ResourceContent)

/-- The value readResource returns: the first content entry, or the whole
response frame when the contents list is absent or empty. -/
inductive ResourceValue where
  | item (c : ResourceContent) : ResourceValue
  | whole (r : ResourceResponse) : ResourceValue

/-- A tool descriptor as discovered from the host. -/
structure MCPTool where
  name : String
  description : Option String
  inputSchema : Option JsonV

/-- A resource descriptor as discovered from the host. -/
structure MCPResource where
  uri : String
  name : String
  description : Option String
  mimeType : Option String

/-- Errors surfaced by client operations: the not-connected guard error
(new Error with the not-connected message in the source) and any error
coming from the host or transport, carrying its message. -/
inductive MCPError where
  | notConnected : MCPError
  | hostError (msg : String) : MCPError
deriving DecidableEq

/-- Transport-level calls a client operation may perform; each operation
returns the list of such calls it made, so that the theorems can speak
about which network activity happened. -/
inductive TransportCall where
  | handshakeCall : TransportCall
  | listToolsCall : TransportCall
  | listResourcesCall : TransportCall
  | callToolCall (name : String) (args : JsonV) : TransportCall
  | readResourceCall (uri : String) : TransportCall
  | closeClientCall : TransportCall
  | closeTransportCall : TransportCall

/-- The JavaScript JSON runtime: JSON.parse (throwing on malformed input,
modelled as Except with the error message) and JSON.stringify. -/
structure JsRuntime where
  parseJson : String → Except String JsonV
  stringifyJson : JsonV → String

/-- The host oracle: the outcome of each transport-level interaction the
client can perform.  createTransport is the StdioClientTransport
constructor (yielding a transport identifier), handshake is
client.connect(transport), and the remaining fields are the host replies
to the corresponding requests. -/
structure Host where
  createTransport : Except String Nat
  handshake : Except String Unit
  listToolsResp : Except String (List MCPTool)
  listResourcesResp : Except String (List MCPResource)
  callToolResp : String → JsonV → Except String ToolResponse
  readResourceResp : String → Except String ResourceResponse
  closeClient : Except String Unit
  closeTransport : Except String Unit

/-- The mutable state of an MCPClient instance: the connected flag and the
transport field (none while the definitely-assigned transport has not been
assigned yet; the Nat identifies which created transport is held). -/
structure MCPClient where
  connected : Bool
  transport : Option Nat
deriving DecidableEq

/-- A freshly constructed client: connected is initialized to false and no
transport has been assigned. -/
def newMCPClient : MCPClient :=
  { connected := false, transport := none }

/-- isConnected from the source: returns the connected flag. -/
def MCPClient.isConnected (self : MCPClient) : Bool :=
  self.connected

/-- listTools from the source: guarded by the connected flag, then a single
host call whose error is rethrown. -/
def MCPClient.listTools (self : MCPClient) (host : Host) :
    Except MCPError (List MCPTool) × List TransportCall :=
  if !self.connected then (Except.error MCPError.notConnected, [])
  else
    match host.listToolsResp with
    | Except.ok ts => (Except.ok ts, [TransportCall.listToolsCall])
    | Except.error e => (Except.error (MCPError.hostError e), [TransportCall.listToolsCall])

/-- listResources from the source: same shape as listTools. -/
def MCPClient.listResources (self : MCPClient) (host : Host) :
    Except MCPError (List MCPResource) × List TransportCall :=
  if !self.connected then (Except.error MCPError.notConnected, [])
  else
    match host.listResourcesResp with
    | Except.ok rs => (Except.ok rs, [TransportCall.listResourcesCall])
    | Except.error e => (Except.error (MCPError.hostError e), [TransportCall.listResourcesCall])

/-- The response-decoding policy of callTool: when the content list is
present and non-empty, a text first item is JSON-parsed, falling back to
the raw text on parse failure; a non-text first item is returned as is;
otherwise the whole response is returned. -/
def decodeToolResponse (js : JsRuntime) (r : ToolResponse) : ToolValue :=
  match r.content with
  | some (c :: _) =>
    match c with
    | ContentItem.text t =>
      match js.parseJson t with
      | Except.ok v => ToolValue.json v
      | Except.error _ => ToolValue.str t
    | ContentItem.nonText ty payload => ToolValue.item (ContentItem.nonText ty payload)
  | _ => ToolValue.whole r

/-- callTool from the source: guarded by the connected flag, one host call,
response decoded by the policy above, host errors rethrown. -/
def MCPClient.callTool (self : MCPClient) (js : JsRuntime) (host : Host)
    (toolName : String) (args : JsonV) :
    Except MCPError ToolValue × List TransportCall :=
  if !self.connected then (Except.error MCPError.notConnected, [])
  else
    match host.callToolResp toolName args with
    | Except.ok r =>
      (Except.ok (decodeToolResponse js r), [TransportCall.callToolCall toolName args])
    | Except.error e =>
      (Except.error (MCPError.hostError e), [TransportCall.callToolCall toolName args])

/-- readResource from the source: guarded by the connected flag, one host
call; a present non-empty contents list yields its first entry, otherwise
the whole response is returned; host errors rethrown. -/
def MCPClient.readResource (self : MCPClient) (host : Host) (uri : String) :
    Except MCPError ResourceValue × List TransportCall :=
  if !self.connected then (Except.error MCPError.notConnected, [])
  else
    match host.readResourceResp uri with
    | Except.ok r =>
      (match r.contents with
       | some (c :: _) => (Except.ok (ResourceValue.item c), [TransportCall.readResourceCall uri])
       | _ => (Except.ok (ResourceValue.whole r), [TransportCall.readResourceCall uri]))
    | Except.error e =>
      (Except.error (MCPError.hostError e), [TransportCall.readResourceCall uri])

/-- connect from the source.  An already connected client returns at once.
Otherwise the transport is constructed (its constructor may throw, in which
case nothing was assigned), the handshake runs (on failure the error is
rethrown with the transport assigned but connected still false), the
connected flag is set, and listTools is called once; a failure of that
final call is also rethrown, with the flag already set. -/
def MCPClient.connect (self : MCPClient) (host : Host) :
    Except MCPError Unit × MCPClient × List TransportCall :=
  if self.connected then (Except.ok (), self, [])
  else
    match host.createTransport with
    | Except.error e => (Except.error (MCPError.hostError e), self, [])
    | Except.ok tid =>
      match host.handshake with
      | Except.error e =>
        (Except.error (MCPError.hostError e),
         { self with transport := some tid }, [TransportCall.handshakeCall])
      | Except.ok _ =>
        let connectedSelf : MCPClient := { self with transport := some tid, connected := true }
        match (MCPClient.listTools connectedSelf host).1 with
        | Except.ok _ =>
          (Except.ok (), connectedSelf,
           TransportCall.handshakeCall :: (MCPClient.listTools connectedSelf host).2)
        | Except.error e =>
          (Except.error e, connectedSelf,
           TransportCall.handshakeCall :: (MCPClient.listTools connectedSelf host).2)

/-- disconnect from the source.  A disconnected client returns at once.
Otherwise the protocol client and the transport are closed in order and the
connected flag is cleared; any error thrown while closing is caught and
only logged, leaving the state untouched, so the function is total. -/
def MCPClient.disconnect (self : MCPClient) (host : Host) :
    MCPClient × List TransportCall :=
  if !self.connected then (self, [])
  else
    match host.closeClient with
    | Except.error _ => (self, [TransportCall.closeClientCall])
    | Except.ok _ =>
      match host.closeTransport with
      | Except.error _ =>
        (self, [TransportCall.closeClientCall, TransportCall.closeTransportCall])
      | Except.ok _ =>
        ({ self with connected := false },
         [TransportCall.closeClientCall, TransportCall.closeTransportCall])

/-
The conversation orchestrator (OpenAIAgent.processMessage).
-/

/-- One tool call requested by an assistant message: its id, the function
name, and the raw serialized-JSON argument string. -/
structure ToolCall where
  id : String
  name : String
  arguments : String
deriving DecidableEq

/-- An assistant message: optional text content and an optional tool-call
list (absent models the undefined tool_calls field). -/
structure AssistantMsg where
  content : Option String
  toolCalls : Option (List ToolCall)
deriving DecidableEq

/-- A conversation message, tagged by role.  A tool message carries the
result text and the id of the tool call it answers. -/
inductive ChatMessage where
  | system (content : String) : ChatMessage
  | user (content : String) : ChatMessage
  | assistant (msg : AssistantMsg) : ChatMessage
  | tool (content : String) (toolCallId : String) : ChatMessage
deriving DecidableEq

/-- The truthiness test of the source dispatch guard: tool_calls is present
and its length is positive. -/
def AssistantMsg.hasCalls (am : AssistantMsg) : Bool :=
  match am.toolCalls with
  | some (_ :: _) => true
  | _ => false

/-- The list the dispatch loop iterates over (empty when tool_calls is
absent; the loop body is then never entered). -/
def AssistantMsg.callList (am : AssistantMsg) : List ToolCall :=
  match am.toolCalls with
  | some l => l
  | none => []

/-- A record of one invocation made on the MCP client: tool name and
parsed arguments. -/
abbrev ClientCall := String × JsonV

/-- The environment of the orchestrator loop: the completion endpoint as a
function of the conversation so far, JSON.parse for the raw argument
strings, the MCP client callTool surface (any thrown error modelled as
Except carrying its message), JSON.stringify for non-string results, and
the fixed system prompt text (whose content the loop never inspects). -/
structure AgentEnv where
  llm : List ChatMessage → AssistantMsg
  parseArgs : String → Except String JsonV
  callTool : String → JsonV → Except String ToolValue
  stringify : ToolValue → String
  systemPromptText : String

/-- The outcome of the per-call try block: the client result, or the
human-readable error string built in the catch clause. -/
inductive ToolResult where
  | ok (v : ToolValue) : ToolResult
  | errStr (s : String) : ToolResult

/-- The body of the per-call try/catch: parse the raw arguments, then call
the client; either failure is caught and turned into the error string, and
the client calls actually made are recorded. -/
def runToolCall (env : AgentEnv) (tc : ToolCall) : ToolResult × List ClientCall :=
  match env.parseArgs tc.arguments with
  | Except.error m =>
    (ToolResult.errStr ("Error executing " ++ tc.name ++ ": " ++ m), [])
  | Except.ok args =>
    match env.callTool tc.name args with
    | Except.ok v => (ToolResult.ok v, [(tc.name, args)])
    | Except.error e =>
      (ToolResult.errStr ("Error executing " ++ tc.name ++ ": " ++ e), [(tc.name, args)])

/-- The content written into the tool-role message: a string result (or the
catch-clause error string) verbatim, any other value JSON-stringified. -/
def toolContentString (env : AgentEnv) : ToolResult → String
  | ToolResult.errStr s => s
  | ToolResult.ok (ToolValue.str s) => s
  | ToolResult.ok v => env.stringify v

/-- One iteration of the dispatch loop body: produce the tool-role message
answering the given request, together with the client calls made for it. -/
def execToolCall (env : AgentEnv) (tc : ToolCall) : ChatMessage × List ClientCall :=
  (ChatMessage.tool (toolContentString env (runToolCall env tc).1) tc.id,
   (runToolCall env tc).2)

/-- The JavaScript or-else on a nullable string: null, undefined and the
empty string are all falsy and yield the default. -/
def jsStringOr (s : Option String) (d : String) : String :=
  match s with
  | some t => if t = "" then d else t
  | none => d

/-- The sentinel returned when the step budget is exhausted. -/
def maxStepsMessage : String :=
  "Maximum conversation steps reached. The task may be incomplete."

/-- The fallback returned when a final assistant message has falsy content. -/
def fallbackMessage : String :=
  "Task completed"

/-- The while loop of processMessage, with the remaining step budget as
fuel.  Each iteration asks the model, appends the assistant message, and
either dispatches the whole batch (appending one tool message per request,
in order) and recurses with one budget step less, or returns the final
text.  Besides the returned string the definition records the number of
dispatch batches executed and every call made on the MCP client. -/
def processLoop (env : AgentEnv) (messages : List ChatMessage) (fuel : Nat) :
    String × Nat × List ClientCall :=
  match fuel with
  | 0 => (maxStepsMessage, 0, [])
  | n + 1 =>
    let am := env.llm messages
    let messages1 := messages ++ [ChatMessage.assistant am]
    if am.hasCalls then
      let toolMsgs := am.callList.map (fun tc => (execToolCall env tc).1)
      let batchCalls := (am.callList.map (fun tc => (execToolCall env tc).2)).flatten
      let rest := processLoop env (messages1 ++ toolMsgs) n
      (rest.1, rest.2.1 + 1, batchCalls ++ rest.2.2)
    else
      (jsStringOr am.content fallbackMessage, 0, [])

/-- The initial conversation: the system prompt and the user task. -/
def initialMessages (env : AgentEnv) (userMessage : String) : List ChatMessage :=
  [ChatMessage.system env.systemPromptText, ChatMessage.user userMessage]

/-- The fixed initial step budget (let maxSteps = 20 in the source). -/
def maxStepsInit : Nat := 20

/-- processMessage with its instrumentation: result string, number of
dispatch batches, and the client calls made. -/
def processMessageT (env : AgentEnv) (userMessage : String) :
    String × Nat × List ClientCall :=
  processLoop env (initialMessages env userMessage) maxStepsInit

/-- processMessage from the source: the returned string alone. -/
def processMessage (env : AgentEnv) (userMessage : String) : String :=
  (processMessageT env userMessage).1

/-
Concrete instances used to evaluate the theorems at specific inputs.
-/

/-- A concrete host whose discovery calls succeed and whose per-item calls
report the host as down. -/
def emptyHost : Host :=
  { createTransport := Except.ok 0
    handshake := Except.ok ()
    listToolsResp := Except.ok []
    listResourcesResp := Except.ok []
    callToolResp := fun _ _ => Except.error "host down"
    readResourceResp := fun _ => Except.error "host down"
    closeClient := Except.ok ()
    closeTransport := Except.ok () }

/-- A concrete JSON runtime recognising exactly the text null. -/
def jsNull : JsRuntime :=
  { parseJson := fun s => if s = "null" then Except.ok JsonV.null else Except.error "SyntaxError"
    stringifyJson := fun _ => "null" }

/-- A host answering every tool call with a single text item holding the
canonical JSON text null. -/
def hostJsonNull : Host :=
  { emptyHost with
    callToolResp := fun _ _ => Except.ok { content := some [ContentItem.text "null"] } }

/-- A host answering every tool call with a single non-JSON text item. -/
def hostPlainText : Host :=
  { emptyHost with
    callToolResp := fun _ _ => Except.ok { content := some [ContentItem.text "hello"] } }

/-- A host whose transport constructor throws. -/
def hostNoTransport : Host :=
  { emptyHost with createTransport := Except.error "spawn failed" }

/-- A host whose handshake throws. -/
def hostBadHandshake : Host :=
  { emptyHost with handshake := Except.error "handshake failed" }

/-- A host whose protocol-client close throws. -/
def badCloseHost : Host :=
  { emptyHost with closeClient := Except.error "close failed" }

/-
Claims about the protocol client.
-/

/-- Claim C5: on a client whose connect has not succeeded (the connected
flag is false, as for a fresh instance or after a successful disconnect),
callTool, listTools, listResources and readResource each fail with the
not-connected error and perform no transport call at all. -/
theorem ops_before_connect_fail_not_connected
    (self : MCPClient) (js : JsRuntime) (host : Host)
    (name uri : String) (args : JsonV) (h : self.connected = false) :
    MCPClient.callTool self js host name args = (Except.error MCPError.notConnected, []) ∧
    MCPClient.listTools self host = (Except.error MCPError.notConnected, []) ∧
    MCPClient.listResources self host = (Except.error MCPError.notConnected, []) ∧
    MCPClient.readResource self host uri = (Except.error MCPError.notConnected, []) := by
  refine ⟨?_, ?_, ?_, ?_⟩ <;>
    simp [MCPClient.callTool, MCPClient.listTools, MCPClient.listResources,
      MCPClient.readResource, h]

/-- Claim C5 witness: the four operations evaluated on a fresh client. -/
theorem ops_before_connect_fail_not_connected_witness :
    MCPClient.callTool newMCPClient jsNull emptyHost "echo" JsonV.null =
      (Except.error MCPError.notConnected, []) ∧
    MCPClient.listTools newMCPClient emptyHost = (Except.error MCPError.notConnected, []) ∧
    MCPClient.listResources newMCPClient emptyHost = (Except.error MCPError.notConnected, []) ∧
    MCPClient.readResource newMCPClient emptyHost "file" =
      (Except.error MCPError.notConnected, []) :=
  ops_before_connect_fail_not_connected newMCPClient jsNull emptyHost "echo" "file"
    JsonV.null rfl

/-- Claim C6: when the host answers a tool call with a single text content
item, callTool returns the JSON decoding of the text whenever it parses,
and returns the identical raw string, without failing, whenever it does
not parse. -/
theorem callTool_text_decode_policy
    (self : MCPClient) (js : JsRuntime) (host : Host)
    (name : String) (args : JsonV) (t : String)
    (hconn : self.connected = true)
    (hresp : host.callToolResp name args =
      Except.ok { content := some [ContentItem.text t] }) :
    (∀ v, js.parseJson t = Except.ok v →
      (MCPClient.callTool self js host name args).1 = Except.ok (ToolValue.json v)) ∧
    (∀ m, js.parseJson t = Except.error m →
      (MCPClient.callTool self js host name args).1 = Except.ok (ToolValue.str t)) := by
  constructor
  · intro v hv
    simp [MCPClient.callTool, hconn, hresp, decodeToolResponse, hv]
  · intro m hm
    simp [MCPClient.callTool, hconn, hresp, decodeToolResponse, hm]

/-- Claim C6 witness: the canonical text null decodes to the JSON null
value, and the non-JSON text hello comes back as the identical string. -/
theorem callTool_text_decode_policy_witness :
    (MCPClient.callTool (MCPClient.mk true (some 0)) jsNull hostJsonNull "echo"
        JsonV.null).1 = Except.ok (ToolValue.json JsonV.null) ∧
    (MCPClient.callTool (MCPClient.mk true (some 0)) jsNull hostPlainText "echo"
        JsonV.null).1 = Except.ok (ToolValue.str "hello") :=
  ⟨(callTool_text_decode_policy (MCPClient.mk true (some 0)) jsNull hostJsonNull
      "echo" JsonV.null "null" rfl rfl).1 JsonV.null rfl,
   (callTool_text_decode_policy (MCPClient.mk true (some 0)) jsNull hostPlainText
      "echo" JsonV.null "hello" rfl rfl).2 "SyntaxError" rfl⟩

/-- Claim C7: connect on an already connected client is a no-op: it
succeeds, leaves the state (connected flag and transport alike) exactly as
it was, and performs no transport call, so no new transport is created and
no handshake is run. -/
theorem connect_idempotent_when_connected
    (self : MCPClient) (host : Host) (h : self.connected = true) :
    MCPClient.connect self host = (Except.ok (), self, []) := by
  simp [MCPClient.connect, h]

/-- Claim C7 witness: connect evaluated on a concrete connected client. -/
theorem connect_idempotent_when_connected_witness :
    MCPClient.connect (MCPClient.mk true (some 3)) emptyHost =
      (Except.ok (), MCPClient.mk true (some 3), []) :=
  connect_idempotent_when_connected (MCPClient.mk true (some 3)) emptyHost rfl

/-- Claim C9: connect is atomic on failure: if the transport constructor
throws, the error is rethrown and the state is exactly the original one;
if the handshake throws, the error is rethrown, the connected flag remains
false, and callTool on the resulting state still fails with the
not-connected error without any transport call. -/
theorem connect_failure_leaves_disconnected
    (self : MCPClient) (host : Host) (h : self.connected = false) :
    (∀ e, host.createTransport = Except.error e →
      MCPClient.connect self host = (Except.error (MCPError.hostError e), self, [])) ∧
    (∀ tid e, host.createTransport = Except.ok tid → host.handshake = Except.error e →
      MCPClient.connect self host =
        (Except.error (MCPError.hostError e), { self with transport := some tid },
         [TransportCall.handshakeCall]) ∧
      ({ self with transport := some tid } : MCPClient).connected = false ∧
      ∀ (js : JsRuntime) (host2 : Host) (name : String) (args : JsonV),
        MCPClient.callTool { self with transport := some tid } js host2 name args =
          (Except.error MCPError.notConnected, [])) := by
  constructor
  · intro e he
    simp [MCPClient.connect, h, he]
  · intro tid e ht he
    refine ⟨by simp [MCPClient.connect, h, ht, he], h, ?_⟩
    intro js host2 name args
    simp [MCPClient.callTool, h]

/-- Claim C9 witness: a failing transport constructor and a failing
handshake, evaluated on a fresh client. -/
theorem connect_failure_leaves_disconnected_witness :
    MCPClient.connect newMCPClient hostNoTransport =
      (Except.error (MCPError.hostError "spawn failed"), newMCPClient, []) ∧
    MCPClient.callTool (MCPClient.mk false (some 0)) jsNull emptyHost "echo" JsonV.null =
      (Except.error MCPError.notConnected, []) :=
  ⟨(connect_failure_leaves_disconnected newMCPClient hostNoTransport rfl).1
      "spawn failed" rfl,
   ((connect_failure_leaves_disconnected newMCPClient hostBadHandshake rfl).2
      0 "handshake failed" rfl rfl).2.2 jsNull emptyHost "echo" JsonV.null⟩

/-- Claim C8 counterexample: a connected client on a host whose
protocol-client close throws still reports itself connected after
disconnect, so it is false that after every disconnect call on a connected
client the state is disconnected. -/
theorem disconnect_failed_close_counterexample :
    (MCPClient.mk true (some 0)).isConnected = true ∧
    (MCPClient.disconnect (MCPClient.mk true (some 0)) badCloseHost).1.isConnected = true :=
  ⟨rfl, rfl⟩

/-- Claim C8, amended: after a disconnect call on a connected client whose
teardown does not throw, the client reports itself disconnected; and a
disconnect call on an already disconnected client is a no-op that changes
nothing, performs no transport call and does not fail. -/
theorem disconnect_marks_disconnected_on_clean_close
    (self : MCPClient) (host : Host) :
    (self.connected = true → host.closeClient = Except.ok () →
      host.closeTransport = Except.ok () →
      (MCPClient.disconnect self host).1.isConnected = false) ∧
    (self.connected = false → MCPClient.disconnect self host = (self, [])) := by
  constructor
  · intro h hc ht
    simp [MCPClient.disconnect, MCPClient.isConnected, h, hc, ht]
  · intro h
    simp [MCPClient.disconnect, h]

/-- Claim C8 witness: a clean disconnect on a connected client, and a
disconnect on a fresh client, both evaluated. -/
theorem disconnect_marks_disconnected_on_clean_close_witness :
    (MCPClient.disconnect (MCPClient.mk true (some 0)) emptyHost).1.isConnected = false ∧
    MCPClient.disconnect newMCPClient emptyHost = (newMCPClient, []) :=
  ⟨(disconnect_marks_disconnected_on_clean_close (MCPClient.mk true (some 0))
      emptyHost).1 rfl rfl rfl,
   (disconnect_marks_disconnected_on_clean_close newMCPClient emptyHost).2 rfl⟩

/-- Claim C10: disconnect swallows teardown errors (being a total function
it propagates no exception): if closing the protocol client throws, or
closing succeeds and closing the transport throws, the state is returned
untouched, so the connected flag is not reset and the client still reports
itself connected. -/
theorem disconnect_swallows_teardown_errors
    (self : MCPClient) (host : Host) (hconn : self.connected = true) :
    (∀ e, host.closeClient = Except.error e →
      MCPClient.disconnect self host = (self, [TransportCall.closeClientCall]) ∧
      (MCPClient.disconnect self host).1.isConnected = true) ∧
    (∀ e, host.closeClient = Except.ok () → host.closeTransport = Except.error e →
      MCPClient.disconnect self host =
        (self, [TransportCall.closeClientCall, TransportCall.closeTransportCall]) ∧
      (MCPClient.disconnect self host).1.isConnected = true) := by
  constructor
  · intro e he
    constructor
    · simp [MCPClient.disconnect, hconn, he]
    · simp [MCPClient.disconnect, MCPClient.isConnected, hconn, he]
  · intro e hc ht
    constructor
    · simp [MCPClient.disconnect, hconn, hc, ht]
    · simp [MCPClient.disconnect, MCPClient.isConnected, hconn, hc, ht]

/-- Claim C10 witness: a failing protocol-client close on a connected
client, evaluated. -/
theorem disconnect_swallows_teardown_errors_witness :
    MCPClient.disconnect (MCPClient.mk true (some 0)) badCloseHost =
      (MCPClient.mk true (some 0), [TransportCall.closeClientCall]) ∧
    (MCPClient.disconnect (MCPClient.mk true (some 0)) badCloseHost).1.isConnected = true :=
  (disconnect_swallows_teardown_errors (MCPClient.mk true (some 0)) badCloseHost rfl).1
    "close failed" rfl

/-
Claims about the conversation orchestrator.
-/

/-- Helper: one unfolding of the loop when the assistant message carries a
non-empty tool-call batch: the assistant message and one tool message per
request are appended, the loop recurses on the extended conversation with
one unit of fuel less, the dispatch counter grows by one, and the client
calls of the batch are recorded in order. -/
theorem processLoop_step (env : AgentEnv) (msgs : List ChatMessage) (n : Nat)
    (hc : (env.llm msgs).hasCalls = true) :
    processLoop env msgs (n + 1) =
      ((processLoop env (msgs ++ [ChatMessage.assistant (env.llm msgs)] ++
          (env.llm msgs).callList.map (fun c => (execToolCall env c).1)) n).1,
       (processLoop env (msgs ++ [ChatMessage.assistant (env.llm msgs)] ++
          (env.llm msgs).callList.map (fun c => (execToolCall env c).1)) n).2.1 + 1,
       ((env.llm msgs).callList.map (fun c => (execToolCall env c).2)).flatten ++
       (processLoop env (msgs ++ [ChatMessage.assistant (env.llm msgs)] ++
          (env.llm msgs).callList.map (fun c => (execToolCall env c).1)) n).2.2) := by
  simp [processLoop, hc]

/-- Helper: one unfolding of the loop when the assistant message carries no
tool calls: the loop returns the message content with the falsy fallback,
no dispatch is counted and no client call is made. -/
theorem processLoop_done (env : AgentEnv) (msgs : List ChatMessage) (n : Nat)
    (hc : (env.llm msgs).hasCalls = false) :
    processLoop env msgs (n + 1) =
      (jsStringOr (env.llm msgs).content fallbackMessage, 0, []) := by
  simp [processLoop, hc]

/-- Claim C1: when the assistant message of a turn carries a batch of N
tool-call requests (N at least one), exactly N tool-role messages are
appended to the conversation before the next ask, the i-th answering the
i-th request by id, whatever the individual outcomes are, and the loop
continues on exactly that extended conversation. -/
theorem dispatch_appends_one_tool_message_per_request
    (env : AgentEnv) (msgs : List ChatMessage) (n : Nat) (calls : List ToolCall)
    (hcalls : (env.llm msgs).toolCalls = some calls) (hne : calls ≠ []) :
    (calls.map (fun c => (execToolCall env c).1)).length = calls.length ∧
    (∀ (i : Nat) (tc : ToolCall), calls[i]? = some tc →
      (calls.map (fun c => (execToolCall env c).1))[i]? =
        some (ChatMessage.tool (toolContentString env (runToolCall env tc).1) tc.id)) ∧
    processLoop env msgs (n + 1) =
      ((processLoop env (msgs ++ [ChatMessage.assistant (env.llm msgs)] ++
          calls.map (fun c => (execToolCall env c).1)) n).1,
       (processLoop env (msgs ++ [ChatMessage.assistant (env.llm msgs)] ++
          calls.map (fun c => (execToolCall env c).1)) n).2.1 + 1,
       (calls.map (fun c => (execToolCall env c).2)).flatten ++
       (processLoop env (msgs ++ [ChatMessage.assistant (env.llm msgs)] ++
          calls.map (fun c => (execToolCall env c).1)) n).2.2) := by
  have hc : (env.llm msgs).hasCalls = true := by
    cases calls with
    | nil => exact absurd rfl hne
    | cons c l => simp [AssistantMsg.hasCalls, hcalls]
  have hl : (env.llm msgs).callList = calls := by
    simp [AssistantMsg.callList, hcalls]
  refine ⟨by simp, ?_, ?_⟩
  · intro i tc hi
    simp [List.getElem?_map, hi, execToolCall]
  · rw [processLoop_step env msgs n hc, hl]

/-- Concrete tool call with well-formed raw arguments. -/
def tcEcho : ToolCall :=
  { id := "call-1", name := "echo", arguments := "null" }

/-- Concrete tool call with malformed raw arguments. -/
def tcBadArgs : ToolCall :=
  { id := "call-2", name := "echo", arguments := "oops" }

/-- Concrete environment: the model always requests the echo call, the
argument text null parses, and the client succeeds with a plain string. -/
def envEcho : AgentEnv :=
  { llm := fun _ => { content := none, toolCalls := some [tcEcho] }
    parseArgs := fun s => if s = "null" then Except.ok JsonV.null else Except.error "SyntaxError"
    callTool := fun _ _ => Except.ok (ToolValue.str "ok")
    stringify := fun _ => "serialized"
    systemPromptText := "system" }

/-- Concrete environment: the model requests a batch of two calls, the
first with malformed arguments, and every client invocation throws. -/
def envMixed : AgentEnv :=
  { envEcho with
    llm := fun _ => { content := none, toolCalls := some [tcBadArgs, tcEcho] }
    callTool := fun _ _ => Except.error "host down" }

/-- Concrete environment: the model immediately answers with text and no
tool calls. -/
def envDone : AgentEnv :=
  { envEcho with llm := fun _ => { content := some "hi", toolCalls := none } }

/-- Claim C1 witness: a batch of one request on a concrete environment
appends one tool message, and the exhausted continuation evaluates. -/
theorem dispatch_appends_one_tool_message_per_request_witness :
    ([tcEcho].map (fun c => (execToolCall envEcho c).1)).length = 1 ∧
    processLoop envEcho (initialMessages envEcho "go") 1 =
      (maxStepsMessage, 1, [("echo", JsonV.null)]) :=
  have h := dispatch_appends_one_tool_message_per_request envEcho
    (initialMessages envEcho "go") 0 [tcEcho] rfl (List.cons_ne_nil _ _)
  ⟨h.1, h.2.2⟩

/-- Claim C2: a failing call of a batch — malformed raw arguments or a
throwing client invocation — yields a tool-role message carrying the
human-readable error string and is never rethrown (the dispatch is a total
function into messages); every other call of the batch contributes its own
message at its own position, and the loop continues. -/
theorem tool_call_failure_isolation
    (env : AgentEnv) (msgs : List ChatMessage) (n : Nat) (calls : List ToolCall)
    (hcalls : (env.llm msgs).toolCalls = some calls) (hne : calls ≠ []) :
    (∀ tc, tc ∈ calls → ∀ m, env.parseArgs tc.arguments = Except.error m →
      (execToolCall env tc).1 =
        ChatMessage.tool ("Error executing " ++ tc.name ++ ": " ++ m) tc.id) ∧
    (∀ tc, tc ∈ calls → ∀ args e, env.parseArgs tc.arguments = Except.ok args →
      env.callTool tc.name args = Except.error e →
      (execToolCall env tc).1 =
        ChatMessage.tool ("Error executing " ++ tc.name ++ ": " ++ e) tc.id) ∧
    (∀ (i : Nat) (tc : ToolCall), calls[i]? = some tc →
      (calls.map (fun c => (execToolCall env c).1))[i]? = some (execToolCall env tc).1) ∧
    (processLoop env msgs (n + 1)).1 =
      (processLoop env (msgs ++ [ChatMessage.assistant (env.llm msgs)] ++
        calls.map (fun c => (execToolCall env c).1)) n).1 := by
  have hc : (env.llm msgs).hasCalls = true := by
    cases calls with
    | nil => exact absurd rfl hne
    | cons c l => simp [AssistantMsg.hasCalls, hcalls]
  have hl : (env.llm msgs).callList = calls := by
    simp [AssistantMsg.callList, hcalls]
  refine ⟨?_, ?_, ?_, ?_⟩
  · intro tc _ m hm
    simp [execToolCall, runToolCall, hm, toolContentString]
  · intro tc _ args e ha he
    simp [execToolCall, runToolCall, ha, he, toolContentString]
  · intro i tc hi
    simp [List.getElem?_map, hi]
  · rw [processLoop_step env msgs n hc, hl]

/-- Claim C2 witness: in a concrete batch of two, the malformed first call
and the throwing second call each yield their error message, and the
second call still occupies position one of the appended messages. -/
theorem tool_call_failure_isolation_witness :
    (execToolCall envMixed tcBadArgs).1 =
      ChatMessage.tool ("Error executing " ++ "echo" ++ ": " ++ "SyntaxError") "call-2" ∧
    (execToolCall envMixed tcEcho).1 =
      ChatMessage.tool ("Error executing " ++ "echo" ++ ": " ++ "host down") "call-1" ∧
    ([tcBadArgs, tcEcho].map (fun c => (execToolCall envMixed c).1))[1]? =
      some (execToolCall envMixed tcEcho).1 :=
  have h := tool_call_failure_isolation envMixed (initialMessages envMixed "go") 0
    [tcBadArgs, tcEcho] rfl (List.cons_ne_nil _ _)
  ⟨h.1 tcBadArgs (by decide) "SyntaxError" rfl,
   h.2.1 tcEcho (by decide) JsonV.null "host down" rfl rfl,
   h.2.2.1 1 tcEcho rfl⟩

/-- Helper: when the model requests tool calls on every turn, the loop
consumes its whole budget, performing exactly one dispatch batch per unit
of fuel, and ends in the sentinel string. -/
theorem processLoop_all_calls_exhausts (env : AgentEnv)
    (h : ∀ msgs, (env.llm msgs).hasCalls = true) :
    ∀ (n : Nat) (msgs : List ChatMessage),
      (processLoop env msgs n).1 = maxStepsMessage ∧
      (processLoop env msgs n).2.1 = n := by
  intro n
  induction n with
  | zero => intro msgs; exact ⟨rfl, rfl⟩
  | succ k ih =>
    intro msgs
    rw [processLoop_step env msgs k (h msgs)]
    refine ⟨(ih _).1, ?_⟩
    rw [(ih _).2]

/-- Claim C3: the step budget starts at the constant 20 and is decremented
once per dispatch batch; a model that requests tool calls on every turn
drives exactly 20 dispatch cycles, after which processMessage returns the
incomplete-task sentinel (it being a total function, no exception is
thrown). -/
theorem step_budget_exhaustion_sentinel (env : AgentEnv) (u : String)
    (h : ∀ msgs, (env.llm msgs).hasCalls = true) :
    maxStepsInit = 20 ∧
    processMessage env u = maxStepsMessage ∧
    (processMessageT env u).2.1 = 20 :=
  ⟨rfl,
   (processLoop_all_calls_exhausts env h maxStepsInit (initialMessages env u)).1,
   (processLoop_all_calls_exhausts env h maxStepsInit (initialMessages env u)).2⟩

/-- Claim C3 witness: the always-calling concrete environment runs the
budget out and yields the sentinel after exactly 20 dispatch cycles. -/
theorem step_budget_exhaustion_sentinel_witness :
    processMessage envEcho "go" =
      "Maximum conversation steps reached. The task may be incomplete." ∧
    (processMessageT envEcho "go").2.1 = 20 :=
  have h := step_budget_exhaustion_sentinel envEcho "go" (fun _ => rfl)
  ⟨h.2.1, h.2.2⟩

/-- Claim C4: when the first assistant message carries no tool calls,
processMessage makes no call on the client and returns the message text
unchanged when it is non-empty, and the fixed non-empty fallback when the
text is absent or empty, so it never returns an empty result. -/
theorem no_tool_calls_returns_first_text (env : AgentEnv) (u : String)
    (h : (env.llm (initialMessages env u)).hasCalls = false) :
    (processMessageT env u).2.2 = [] ∧
    (∀ s, (env.llm (initialMessages env u)).content = some s → s ≠ "" →
      processMessage env u = s) ∧
    ((env.llm (initialMessages env u)).content = none ∨
      (env.llm (initialMessages env u)).content = some "" →
      processMessage env u = fallbackMessage) ∧
    processMessage env u ≠ "" := by
  have hT : processMessageT env u =
      (jsStringOr (env.llm (initialMessages env u)).content fallbackMessage, 0, []) :=
    processLoop_done env (initialMessages env u) 19 h
  refine ⟨?_, ?_, ?_, ?_⟩
  · rw [hT]
  · intro s hs hne
    show (processMessageT env u).1 = s
    rw [hT, hs]
    simp [jsStringOr, hne]
  · intro hc
    show (processMessageT env u).1 = fallbackMessage
    rcases hc with h0 | h0 <;> rw [hT, h0] <;> simp [jsStringOr]
  · show (processMessageT env u).1 ≠ ""
    rw [hT]
    rcases hco : (env.llm (initialMessages env u)).content with _ | s
    · simp only [jsStringOr, fallbackMessage]
      decide
    · by_cases hs : s = ""
      · simp only [jsStringOr, hs, if_pos, fallbackMessage]
        decide
      · simp [jsStringOr, hs]

/-- Claim C4 witness: a model answering hi with no tool calls gives the
result hi and an empty client-call trace. -/
theorem no_tool_calls_returns_first_text_witness :
    processMessage envDone "say hello" = "hi" ∧
    (processMessageT envDone "say hello").2.2 = [] :=
  have h := no_tool_calls_returns_first_text envDone "say hello" rfl
  ⟨h.2.1 "hi" rfl (by decide), h.1⟩
